import Mathlib

/-!
Verification of the Monopoly game orchestration layer.

This file shallowly embeds the two source files of the repository:
* `server/index.js` — the Express Session Gateway in front of the external
  Python rules engine, with best-effort MongoDB mirroring (History Store), and
  the static board-catalog generator served by `GET /api/board`;
* `client/src/App.js` — the React Turn Controller driving the playback modes
  (single step, auto-play, fast-forward, play-to-end) plus the pure
  `getBoardPosition` coordinate mapper.

Pure code is translated into Lean functions; the React component is modelled
as a labelled transition system over its state fields, with one transition per
synchronous code segment (button handlers, timer firing, response handlers);
after every state change the auto-play `useEffect` is re-run, which is modelled
by recomputing the scheduled-timer flag from the new field values.
-/

set_option maxHeartbeats 1600000

namespace Monopoly

/-! ## Board Topology Mapper: board catalog (`GET /api/board` in server/index.js) -/

/-- One entry of the `colors` array in the `/api/board` handler. -/
structure ColorSpec where
  name : String
  basePrice : Nat
  baseFare : Nat
  hex : String
deriving DecidableEq, Repr

/-- The `colors` catalog literal from `server/index.js`. -/
def colors : List ColorSpec := [
  ⟨"Brown", 60, 30, "#8B4513"⟩,
  ⟨"Light Blue", 80, 40, "#87CEEB"⟩,
  ⟨"Pink", 100, 50, "#FFB6C1"⟩,
  ⟨"Orange", 120, 60, "#FFA500"⟩,
  ⟨"Red", 150, 75, "#FF0000"⟩,
  ⟨"Yellow", 180, 90, "#FFD700"⟩,
  ⟨"Green", 220, 110, "#228B22"⟩,
  ⟨"Dark Blue", 280, 140, "#00008B"⟩,
  ⟨"Purple", 320, 160, "#800080"⟩]

/-- The `gamblePositions` literal from `server/index.js`. -/
def gamblePositions : List Nat := [9, 19, 29, 39]

/-- One board tile as pushed onto `board` by the `/api/board` handler. -/
inductive Tile where
  | gamble (index : Nat) (name : String) (hex : String)
  | property (index : Nat) (name : String) (color : String) (hex : String)
      (price : Nat) (fare : Nat)
deriving DecidableEq, Repr

instance : Inhabited Tile := ⟨.gamble 0 "" ""⟩

def Tile.index : Tile → Nat
  | .gamble i _ _ => i
  | .property i _ _ _ _ _ => i

def Tile.isGamble : Tile → Bool
  | .gamble _ _ _ => true
  | .property _ _ _ _ _ _ => false

def Tile.colorName : Tile → Option String
  | .gamble _ _ _ => none
  | .property _ _ c _ _ _ => some c

def Tile.price : Tile → Option Nat
  | .gamble _ _ _ => none
  | .property _ _ _ _ p _ => some p

def Tile.fare : Tile → Option Nat
  | .gamble _ _ _ => none
  | .property _ _ _ _ _ f => some f

/-- One iteration of the `for (let i = 0; i < 40; i++)` loop of the board
generator: the accumulator carries the board built so far and `propertyIdx`. -/
def boardStep (acc : List Tile × Nat) (i : Nat) : List Tile × Nat :=
  let board := acc.1
  let propertyIdx := acc.2
  if i ∈ gamblePositions then
    (board ++ [Tile.gamble i
        ("Gamble Zone " ++ toString (gamblePositions.indexOf i + 1)) "#FFD700"],
      propertyIdx)
  else
    let colorIdx := propertyIdx / 4
    let posInColor := propertyIdx % 4
    let color := colors.getD colorIdx ⟨"", 0, 0, ""⟩
    (board ++ [Tile.property i
        (color.name ++ " Property " ++ toString (posInColor + 1))
        color.name color.hex
        (color.basePrice + posInColor * 10)
        (color.baseFare + posInColor * 5)],
      propertyIdx + 1)

/-- The board catalog built by the `GET /api/board` handler. -/
def generateBoard : List Tile := ((List.range 40).foldl boardStep ([], 0)).1

/-- The 36 property tiles of the catalog, in board order. -/
def propertyTiles : List Tile := generateBoard.filter (fun t => t.isGamble = false)

/-! ## Board Topology Mapper: `getBoardPosition` (client/src/App.js) -/

/-- `getBoardPosition` from `client/src/App.js`: maps a linear tile index to a
(row, column) cell of the 11×11 CSS grid. -/
def getBoardPosition (index : Nat) : Nat × Nat :=
  if index ≤ 10 then (11, 11 - index)
  else if index ≤ 19 then (11 - (index - 10), 1)
  else if index ≤ 30 then (1, index - 19)
  else (index - 29, 11)

/-- A cell of the 11×11 grid lying on its perimeter. -/
def isPerimeterCell (rc : Nat × Nat) : Bool :=
  1 ≤ rc.1 && rc.1 ≤ 11 && 1 ≤ rc.2 && rc.2 ≤ 11 &&
    (rc.1 = 1 || rc.1 = 11 || rc.2 = 1 || rc.2 = 11)

/-- C4: `generateBoard` returns exactly 40 tiles; the tile at every position
`0..39` carries that position as its `index`; exactly the four tiles at the
evenly spaced edge-end indices 9, 19, 29 and 39 have type `gamble`; and the
remaining 36 tiles are property tiles assigned in order to 9 districts of 4
consecutive catalog tiles each (the `j`-th property tile, `j < 36`, belongs to
catalog color `j / 4`). -/
theorem c4_board_layout :
    generateBoard.length = 40 ∧
    (∀ i, i < 40 → (generateBoard.getD i default).index = i) ∧
    (generateBoard.filter (fun t => t.isGamble = true)).map Tile.index =
      [9, 19, 29, 39] ∧
    (∀ i, i < 40 →
      ((generateBoard.getD i default).isGamble = true ↔ i ∈ gamblePositions)) ∧
    propertyTiles.length = 36 ∧
    colors.length = 9 ∧
    (∀ j, j < 36 →
      (propertyTiles.getD j default).colorName =
        some ((colors.getD (j / 4) ⟨"", 0, 0, ""⟩).name)) := by
  refine ⟨by decide, by decide, by decide, by decide, by decide, by decide, by decide⟩

/-- Witness for C4: the tile at position 7 has index 7. -/
theorem c4_board_layout_witness : (generateBoard.getD 7 default).index = 7 :=
  c4_board_layout.2.1 7 (by decide)

/-- C5: within every one of the 9 districts, the property tile at position
`p` (0..3) has `price = basePrice + p*10` and `fare = baseFare + p*5`, so both
price and fare grow by exactly +10 and +5 from one position to the next. -/
theorem c5_district_pricing : ∀ d, d < 9 → ∀ p, p < 4 →
    (propertyTiles.getD (4 * d + p) default).price =
      some ((colors.getD d ⟨"", 0, 0, ""⟩).basePrice + p * 10) ∧
    (propertyTiles.getD (4 * d + p) default).fare =
      some ((colors.getD d ⟨"", 0, 0, ""⟩).baseFare + p * 5) ∧
    (p < 3 →
      (propertyTiles.getD (4 * d + p) default).price.getD 0 + 10 =
        (propertyTiles.getD (4 * d + p + 1) default).price.getD 0 ∧
      (propertyTiles.getD (4 * d + p) default).fare.getD 0 + 5 =
        (propertyTiles.getD (4 * d + p + 1) default).fare.getD 0) := by
  decide

/-- Witness for C5: district 4 (Red), position 1 prices. -/
theorem c5_district_pricing_witness :
    (propertyTiles.getD 17 default).price = some 160 ∧
    (propertyTiles.getD 17 default).fare = some 80 := by
  have h := c5_district_pricing 4 (by decide) 1 (by decide)
  exact ⟨by rw [h.1]; rfl, by rw [h.2.1]; rfl⟩

/-- C6: `getBoardPosition` is a bijection from `0..39` onto the 40 perimeter
cells of the 11×11 grid: it is injective on `0..39`, hits only perimeter
cells, and every perimeter cell is hit; indices 0-10 lie on the bottom edge
(row 11) with strictly decreasing column, 11-19 on the left edge (column 1)
going upward, 20-30 on the top edge (row 1) with strictly increasing column,
31-39 on the right edge (column 11) going downward, and indices 0, 10, 20, 30
map to the four grid corners. -/
theorem c6_position_bijection :
    (∀ i, i < 40 → ∀ j, j < 40 → getBoardPosition i = getBoardPosition j → i = j) ∧
    (∀ i, i < 40 → isPerimeterCell (getBoardPosition i) = true) ∧
    (∀ r, r ≤ 11 → ∀ c, c ≤ 11 → isPerimeterCell (r, c) = true →
      ∃ i, i < 40 ∧ getBoardPosition i = (r, c)) ∧
    (∀ i, i ≤ 10 → (getBoardPosition i).1 = 11) ∧
    (∀ i, i < 10 → (getBoardPosition (i + 1)).2 < (getBoardPosition i).2) ∧
    (∀ i, 11 ≤ i → i ≤ 19 → (getBoardPosition i).2 = 1) ∧
    (∀ i, 11 ≤ i → i < 19 → (getBoardPosition (i + 1)).1 < (getBoardPosition i).1) ∧
    (∀ i, 20 ≤ i → i ≤ 30 → (getBoardPosition i).1 = 1) ∧
    (∀ i, 20 ≤ i → i < 30 → (getBoardPosition i).2 < (getBoardPosition (i + 1)).2) ∧
    (∀ i, 31 ≤ i → i ≤ 39 → (getBoardPosition i).2 = 11) ∧
    (∀ i, 31 ≤ i → i < 39 → (getBoardPosition i).1 < (getBoardPosition (i + 1)).1) ∧
    getBoardPosition 0 = (11, 11) ∧ getBoardPosition 10 = (11, 1) ∧
    getBoardPosition 20 = (1, 1) ∧ getBoardPosition 30 = (1, 11) := by
  refine ⟨by decide, by decide, by decide, by decide, by decide, by decide, by decide,
    by decide, by decide, by decide, by decide, by decide, by decide, by decide, by decide⟩

/-- Witness for C6: the perimeter cell (1, 5) is the image of some index below 40. -/
theorem c6_position_bijection_witness :
    ∃ i, i < 40 ∧ getBoardPosition i = (1, 5) :=
  c6_position_bijection.2.2.1 1 (by decide) 5 (by decide) (by decide)

/-! ## Session Gateway (server/index.js)

Each Express handler first awaits the engine (axios) call; an engine failure
jumps to the handler's outer `catch`. Mongo mirroring calls sit in an inner
`try`/`catch` whose `catch` only logs, so a store failure is swallowed. A
handler is embedded as a function of the engine outcome and the store's
availability; it returns the HTTP status, the response body, and the effect
the handler had on the History Store. -/

/-- A normalized axios error: `error.response?.status` and
`error.response?.data?.error`. -/
structure EngineError where
  status : Option Nat
  msg : Option String
deriving DecidableEq, Repr

/-- What a handler did to the History Store. -/
inductive StoreEffect where
  | noWrite
  | attempted (ok : Bool)
deriving DecidableEq, Repr

/-- Outcome of one Express handler: HTTP status, response body (payload or
error message), and the store effect. -/
structure HandlerOut (β : Type) where
  status : Nat
  body : β ⊕ String
  store : StoreEffect
deriving DecidableEq, Repr

/-- Engine payload of `POST /api/game/new`. -/
structure NewGameData (σ : Type) where
  gameId : String
  agents : List String
  state : σ
deriving DecidableEq, Repr

/-- Engine payload of `POST /api/game/:gameId/turn`. -/
structure TurnData (σ ε : Type) where
  state : σ
  turnInfo : Option ε
  gameOver : Bool
  winner : Option Nat
deriving DecidableEq, Repr

/-- Engine payload of `POST /api/game/:gameId/play`. -/
structure PlayData (σ ε : Type) where
  state : σ
  totalTurns : Nat
  history : List ε
  winner : Option Nat
deriving DecidableEq, Repr

/-- `POST /api/game/new`: forward to the engine; on success create the mirror
record inside an inner try/catch and answer 200 with the engine data; on
engine failure answer 500 with the engine's message when present. -/
def newGameHandler {σ : Type} (engine : Except EngineError (NewGameData σ))
    (dbOk : Bool) : HandlerOut (NewGameData σ) :=
  match engine with
  | .ok g => { status := 200, body := .inl g, store := .attempted dbOk }
  | .error e =>
      { status := 500, body := .inr (e.msg.getD "Failed to create game"),
        store := .noWrite }

/-- `POST /api/game/:gameId/turn`: forward to the engine; when the returned
turn data carries `gameOver`, update the mirror record inside an inner
try/catch; answer 200 with the engine data. A 404 from the engine becomes
404 "Game not found", any other failure 500. -/
def turnHandler {σ ε : Type} (engine : Except EngineError (TurnData σ ε))
    (dbOk : Bool) : HandlerOut (TurnData σ ε) :=
  match engine with
  | .ok t =>
      { status := 200, body := .inl t,
        store := if t.gameOver then .attempted dbOk else .noWrite }
  | .error e =>
      if e.status = some 404 then
        { status := 404, body := .inr "Game not found", store := .noWrite }
      else
        { status := 500, body := .inr "Failed to play turn", store := .noWrite }

/-- `POST /api/game/:gameId/play`: forward to the engine; on success overwrite
the mirror record (inner try/catch) and answer 200 with the engine data. -/
def playHandler {σ ε : Type} (engine : Except EngineError (PlayData σ ε))
    (dbOk : Bool) : HandlerOut (PlayData σ ε) :=
  match engine with
  | .ok g => { status := 200, body := .inl g, store := .attempted dbOk }
  | .error _ =>
      { status := 500, body := .inr "Failed to play full game", store := .noWrite }

/-- `POST /api/game/:gameId/fast-forward`: pure proxy, no store write at all. -/
def fastForwardHandler {σ : Type} (engine : Except EngineError σ) :
    HandlerOut σ :=
  match engine with
  | .ok g => { status := 200, body := .inl g, store := .noWrite }
  | .error _ =>
      { status := 500, body := .inr "Failed to fast forward", store := .noWrite }

/-- `DELETE /api/game/:gameId`: forward the deletion to the engine; only when
that call returns does control reach the inner try/catch deleting the mirror
record; then answer `{message: 'Game deleted'}`. Any engine failure jumps to
the outer catch: 500, and the mirror delete is never attempted. -/
def deleteHandler (engine : Except EngineError Unit) (dbOk : Bool) :
    HandlerOut String :=
  match engine with
  | .ok _ => { status := 200, body := .inl "Game deleted", store := .attempted dbOk }
  | .error _ =>
      { status := 500, body := .inr "Failed to delete game", store := .noWrite }

/-- `POST /api/simulate`: forward to the engine; on success persist the
tournament record inside an inner try/catch and answer 200 with the results. -/
def simulateHandler {τ : Type} (engine : Except EngineError τ) (dbOk : Bool) :
    HandlerOut τ :=
  match engine with
  | .ok r => { status := 200, body := .inl r, store := .attempted dbOk }
  | .error _ =>
      { status := 500, body := .inr "Failed to run simulation", store := .noWrite }

/-- The externally visible part of a handler outcome: HTTP status and body. -/
def HandlerOut.resp {β : Type} (h : HandlerOut β) : Nat × (β ⊕ String) :=
  (h.status, h.body)

/-- C1: for every state-changing Gateway operation (create session, single
turn, play-to-completion, delete, tournament simulate), the HTTP status and
body are identical whether the History Store write succeeds or fails — in
particular after a successful engine call. -/
theorem c1_store_failure_never_alters_response {σ ε τ : Type}
    (e1 : Except EngineError (NewGameData σ))
    (e2 : Except EngineError (TurnData σ ε))
    (e3 : Except EngineError (PlayData σ ε))
    (e4 : Except EngineError Unit)
    (e5 : Except EngineError τ)
    (d d' : Bool) :
    (newGameHandler e1 d).resp = (newGameHandler e1 d').resp ∧
    (turnHandler e2 d).resp = (turnHandler e2 d').resp ∧
    (playHandler e3 d).resp = (playHandler e3 d').resp ∧
    (deleteHandler e4 d).resp = (deleteHandler e4 d').resp ∧
    (simulateHandler e5 d).resp = (simulateHandler e5 d').resp := by
  refine ⟨?_, ?_, ?_, ?_, ?_⟩ <;> first
    | (cases e1 <;> rfl)
    | (cases e2 <;> rfl)
    | (cases e3 <;> rfl)
    | (cases e4 <;> rfl)
    | (cases e5 <;> rfl)

/-- C7 counterexample: on an engine failure that is not a NotFound (engine
reported status 500), the delete handler never attempts the mirror delete,
refuting "best-effort-deletes the mirrored History record regardless of
whether the engine call itself succeeded, as long as the engine did not
report NotFound". -/
theorem c7_counterexample :
    (deleteHandler (Except.error ⟨some 500, some "engine down"⟩) true).store =
        StoreEffect.noWrite ∧
    ∀ d : Bool,
      (deleteHandler (Except.error ⟨some 500, some "engine down"⟩) true).store ≠
        StoreEffect.attempted d := by
  decide

/-- C7 (amended): `deleteSession` forwards the deletion to the engine and
best-effort-deletes the mirrored History record only when the engine call
succeeded; the caller then receives the deletion acknowledgement independent
of the mirror delete's outcome; on any engine failure (NotFound included) the
handler answers 500 and never attempts the mirror delete. -/
theorem c7_delete_mirror_behavior (d d' : Bool) (err : EngineError) :
    (deleteHandler (Except.ok ()) d).resp = (200, Sum.inl "Game deleted") ∧
    (deleteHandler (Except.ok ()) d).resp = (deleteHandler (Except.ok ()) d').resp ∧
    (deleteHandler (Except.ok ()) d).store = StoreEffect.attempted d ∧
    (deleteHandler (Except.error err) d).status = 500 ∧
    (deleteHandler (Except.error err) d).store = StoreEffect.noWrite := by
  exact ⟨rfl, rfl, rfl, rfl, rfl⟩

/-! ## History Store reads: `GET /api/history` -/

/-- A stored game-history document (the fields relevant to listing). -/
structure GameRecord where
  gameId : String
  winner : Option Nat
  createdAt : Nat
  history : List Nat
deriving DecidableEq, Repr

/-- A game-history document after `select('-history')`: the heavy `history`
field is omitted. -/
structure GameRecordLite where
  gameId : String
  winner : Option Nat
  createdAt : Nat
deriving DecidableEq, Repr

/-- Projection performed by `select('-history')`. -/
def stripHistory (g : GameRecord) : GameRecordLite :=
  ⟨g.gameId, g.winner, g.createdAt⟩

/-- The `sort({createdAt: -1})` comparison: `a` is at least as recent as `b`. -/
def moreRecent (a b : GameRecord) : Prop := b.createdAt ≤ a.createdAt

instance : DecidableRel moreRecent := fun a b => Nat.decLe b.createdAt a.createdAt

instance : IsTotal GameRecord moreRecent :=
  ⟨fun a b => (Nat.le_total b.createdAt a.createdAt).elim Or.inl Or.inr⟩

instance : IsTrans GameRecord moreRecent :=
  ⟨fun _ _ _ h1 h2 => Nat.le_trans h2 h1⟩

/-- `GameHistory.find().sort({createdAt: -1}).limit(50).select('-history')`. -/
def listRecentGames (db : List GameRecord) : List GameRecordLite :=
  ((List.insertionSort moreRecent db).take 50).map stripHistory

/-- Body of the `GET /api/history` response. -/
structure HistoryBody where
  games : List GameRecordLite
  error : Option String
deriving DecidableEq, Repr

/-- `GET /api/history`: when the store is reachable answer 200 with the
listing; when the query throws answer 200 with `{games: [], error: ...}`. -/
def historyHandler (db : Option (List GameRecord)) : Nat × HistoryBody :=
  match db with
  | some recs => (200, ⟨listRecentGames recs, none⟩)
  | none => (200, ⟨[], some "Database not available"⟩)

/-- C8: `GET /api/history` answers HTTP 200 in both outcomes; with the store
unavailable the body is `{games: [], error: <non-empty>}` and never a 5xx;
with the store available it returns at most 50 records, ordered by creation
time descending, each with the heavy `history` field stripped, and the
returned records together with the dropped ones partition the store with
every dropped record no more recent than any returned one. -/
theorem c8_history_endpoint (db : List GameRecord) :
    (historyHandler none).1 = 200 ∧
    (historyHandler none).2.games = [] ∧
    (historyHandler none).2.error = some "Database not available" ∧
    "Database not available" ≠ "" ∧
    (historyHandler (some db)).1 = 200 ∧
    (historyHandler (some db)).2.error = none ∧
    (historyHandler (some db)).2.games.length ≤ 50 ∧
    List.Sorted (fun a b : GameRecordLite => b.createdAt ≤ a.createdAt)
      (historyHandler (some db)).2.games ∧
    (historyHandler (some db)).2.games =
      ((List.insertionSort moreRecent db).take 50).map stripHistory ∧
    (∀ g ∈ (historyHandler (some db)).2.games, ∃ r ∈ db, stripHistory r = g) ∧
    ∃ dropped : List GameRecord,
      List.Perm ((List.insertionSort moreRecent db).take 50 ++ dropped) db ∧
      ∀ x ∈ (List.insertionSort moreRecent db).take 50, ∀ y ∈ dropped,
        y.createdAt ≤ x.createdAt := by
  have hsorted : List.Sorted moreRecent (List.insertionSort moreRecent db) :=
    List.sorted_insertionSort moreRecent db
  have hsplit : (List.insertionSort moreRecent db).take 50 ++
      (List.insertionSort moreRecent db).drop 50 = List.insertionSort moreRecent db :=
    List.take_append_drop 50 _
  have hpair : List.Pairwise moreRecent
      ((List.insertionSort moreRecent db).take 50 ++
        (List.insertionSort moreRecent db).drop 50) := by
    rw [hsplit]; exact hsorted
  rw [List.pairwise_append] at hpair
  refine ⟨rfl, rfl, rfl, by decide, rfl, rfl, ?_, ?_, rfl, ?_, ?_⟩
  · show (listRecentGames db).length ≤ 50
    rw [listRecentGames, List.length_map, List.length_take]
    exact Nat.min_le_left _ _
  · show List.Sorted _ (listRecentGames db)
    exact List.Pairwise.map stripHistory (fun a b h => h) hpair.1
  · intro g hg
    rw [show (historyHandler (some db)).2.games = listRecentGames db from rfl,
      listRecentGames, List.mem_map] at hg
    obtain ⟨r, hr, hrg⟩ := hg
    exact ⟨r, (List.mem_insertionSort moreRecent).1 (List.mem_of_mem_take hr), hrg⟩
  · refine ⟨(List.insertionSort moreRecent db).drop 50, ?_, fun x hx y hy => ?_⟩
    · rw [hsplit]; exact List.perm_insertionSort moreRecent db
    · exact hpair.2.2 x hx y hy

/-- Witness for C8: a concrete two-record store is listed newest-first. -/
theorem c8_history_endpoint_witness :
    (historyHandler (some [⟨"g1", none, 3, [1]⟩, ⟨"g2", some 0, 7, [2, 3]⟩])).2.games =
      [⟨"g2", some 0, 7⟩, ⟨"g1", none, 3⟩] :=
  ((c8_history_endpoint [⟨"g1", none, 3, [1]⟩, ⟨"g2", some 0, 7, [2, 3]⟩]).2.2.2.2.2.2.2.2.1).trans
    (by decide)

/-! ## Turn Controller (client/src/App.js)

The React component `App` is modelled as a labelled transition system. Its
state gathers the `useState` fields plus two bookkeeping fields: `inFlight`,
the multiset of HTTP requests issued but not yet answered, and `timerSet`,
whether the auto-play `useEffect` currently has a `setTimeout` pending. Every
synchronous code segment (a button's `onClick` up to its first `await`, a
response handler, the timer firing) is one transition; since React re-runs
the effect after each render triggered by a state change, each transition
ends by recomputing `timerSet` from the new values of its dependencies
(`autoPlay && !loading && !gameOver`). -/

/-- An HTTP request the controller can have in flight. -/
inductive Req where
  | newGame
  | turn
  | fastForward
  | playToEnd
deriving DecidableEq, Repr

/-- The controller state: the `useState` fields of `App`, plus the in-flight
request multiset and the pending-timer flag. -/
structure CState (σ ε : Type) where
  gameId : Option String
  gameState : Option σ
  agents : List String
  history : List ε
  loading : Bool
  autoPlay : Bool
  gameOver : Bool
  winner : Option Nat
  inFlight : List Req
  timerSet : Bool
deriving DecidableEq, Repr

variable {σ ε : Type}

/-- Response of `POST /api/game/:id/turn` as consumed by `playTurn`. -/
structure TurnResp (σ ε : Type) where
  state : σ
  turnInfo : Option ε
  gameOver : Bool
  winner : Option Nat
deriving DecidableEq, Repr

/-- Response of `POST /api/game/:id/fast-forward` as consumed by `fastForward`. -/
structure BatchResp (σ : Type) where
  state : σ
  gameOver : Bool
  winner : Option Nat
deriving DecidableEq, Repr

/-- Response of `POST /api/game/:id/play` as consumed by `playToEnd`. -/
structure PlayResp (σ ε : Type) where
  state : σ
  history : Option (List ε)
  winner : Option Nat
deriving DecidableEq, Repr

/-- Response of `POST /api/game/new` as consumed by `startNewGame`. -/
structure CreateResp (σ : Type) where
  gameId : String
  state : σ
  agents : List String
deriving DecidableEq, Repr

/-- Re-run of the auto-play `useEffect`: schedule a turn timer exactly when
`autoPlay && !loading && !gameOver`, cancelling any previous timer. -/
def recomputeTimer (s : CState σ ε) : CState σ ε :=
  { s with timerSet := s.autoPlay && !s.loading && !s.gameOver }

/-- Synchronous prefix of `playTurn`: the `if (!gameId || gameOver) return`
guard, then `setLoading(true)` and the issue of the turn request. -/
def playTurnStart (s : CState σ ε) : CState σ ε :=
  if s.gameId = none ∨ s.gameOver = true then s
  else recomputeTimer { s with loading := true, inFlight := Req.turn :: s.inFlight }

/-- `playTurn`'s success continuation: apply the authoritative state, append
the turn-log entry when present, and on `gameOver` set the terminal flags and
stop auto-play; finally `setLoading(false)`. -/
def applyTurnOk (s : CState σ ε) (r : TurnResp σ ε) : CState σ ε :=
  recomputeTimer { s with
    gameState := some r.state,
    history := s.history ++ r.turnInfo.toList,
    gameOver := if r.gameOver then true else s.gameOver,
    winner := if r.gameOver then r.winner else s.winner,
    autoPlay := if r.gameOver then false else s.autoPlay,
    loading := false,
    inFlight := s.inFlight.erase Req.turn }

/-- `playTurn`'s catch: stop auto-play, then `setLoading(false)`. -/
def applyTurnErr (s : CState σ ε) : CState σ ε :=
  recomputeTimer { s with
    autoPlay := false, loading := false, inFlight := s.inFlight.erase Req.turn }

/-- Synchronous prefix of `fastForward`: guard, `setLoading(true)`, request. -/
def fastForwardStart (s : CState σ ε) : CState σ ε :=
  if s.gameId = none ∨ s.gameOver = true then s
  else recomputeTimer { s with loading := true, inFlight := Req.fastForward :: s.inFlight }

/-- `fastForward`'s success continuation: apply the state and, when the batch
finished the game, set the terminal flags (auto-play is not touched). -/
def applyFastForwardOk (s : CState σ ε) (r : BatchResp σ) : CState σ ε :=
  recomputeTimer { s with
    gameState := some r.state,
    gameOver := if r.gameOver then true else s.gameOver,
    winner := if r.gameOver then r.winner else s.winner,
    loading := false,
    inFlight := s.inFlight.erase Req.fastForward }

/-- `fastForward`'s catch: only `setLoading(false)`. -/
def applyFastForwardErr (s : CState σ ε) : CState σ ε :=
  recomputeTimer { s with
    loading := false, inFlight := s.inFlight.erase Req.fastForward }

/-- Synchronous prefix of `playToEnd`: guard, `setLoading(true)`, request. -/
def playToEndStart (s : CState σ ε) : CState σ ε :=
  if s.gameId = none ∨ s.gameOver = true then s
  else recomputeTimer { s with loading := true, inFlight := Req.playToEnd :: s.inFlight }

/-- `playToEnd`'s success continuation: apply the state, replace the log
wholesale with the engine's full history, and end the game. -/
def applyPlayToEndOk (s : CState σ ε) (r : PlayResp σ ε) : CState σ ε :=
  recomputeTimer { s with
    gameState := some r.state,
    history := r.history.getD [],
    gameOver := true,
    winner := r.winner,
    loading := false,
    inFlight := s.inFlight.erase Req.playToEnd }

/-- `playToEnd`'s catch: only `setLoading(false)`. -/
def applyPlayToEndErr (s : CState σ ε) : CState σ ε :=
  recomputeTimer { s with
    loading := false, inFlight := s.inFlight.erase Req.playToEnd }

/-- Synchronous prefix of `startNewGame`: `setLoading(true)`, request. -/
def startNewGameStart (s : CState σ ε) : CState σ ε :=
  recomputeTimer { s with loading := true, inFlight := Req.newGame :: s.inFlight }

/-- `startNewGame`'s success continuation: install the fresh session and reset
log, terminal flags and winner. -/
def applyCreateOk (s : CState σ ε) (r : CreateResp σ) : CState σ ε :=
  recomputeTimer { s with
    gameId := some r.gameId,
    gameState := some r.state,
    agents := r.agents,
    history := [],
    gameOver := false,
    winner := none,
    loading := false,
    inFlight := s.inFlight.erase Req.newGame }

/-- `startNewGame`'s catch: only `setLoading(false)` (the stale log stays). -/
def applyCreateErr (s : CState σ ε) : CState σ ε :=
  recomputeTimer { s with
    loading := false, inFlight := s.inFlight.erase Req.newGame }

/-- The in-game "New Game" button: reset `gameId`, `gameState`, `gameOver`
and `autoPlay`; `history` and `winner` are not touched. -/
def newGameClick (s : CState σ ε) : CState σ ε :=
  recomputeTimer { s with
    gameId := none, gameState := none, gameOver := false, autoPlay := false }

/-- The Game-Over modal's "New Game" button: reset `gameId`, `gameState`,
`gameOver` and `winner`; `history` and `autoPlay` are not touched. -/
def modalNewGameClick (s : CState σ ε) : CState σ ε :=
  recomputeTimer { s with
    gameId := none, gameState := none, gameOver := false, winner := none }

/-- The auto-play toggle button: `setAutoPlay(!autoPlay)`. -/
def toggleAutoPlay (s : CState σ ε) : CState σ ε :=
  recomputeTimer { s with autoPlay := !s.autoPlay }

/-- One transition of the controller. Button transitions carry the `disabled`
condition of the button and the view it is rendered in; response transitions
require the matching request to be in flight; the timer transition consumes
the pending timer and runs `playTurn`. -/
inductive Step : CState σ ε → CState σ ε → Prop where
  | createBtn (s : CState σ ε) :
      s.gameId = none → s.loading = false → Step s (startNewGameStart s)
  | createOk (s : CState σ ε) (r : CreateResp σ) :
      Req.newGame ∈ s.inFlight → Step s (applyCreateOk s r)
  | createErr (s : CState σ ε) :
      Req.newGame ∈ s.inFlight → Step s (applyCreateErr s)
  | playBtn (s : CState σ ε) :
      s.gameId ≠ none → s.loading = false → s.gameOver = false →
      s.autoPlay = false → Step s (playTurnStart s)
  | timerFire (s : CState σ ε) :
      s.timerSet = true → Step s (playTurnStart { s with timerSet := false })
  | turnOk (s : CState σ ε) (r : TurnResp σ ε) :
      Req.turn ∈ s.inFlight → Step s (applyTurnOk s r)
  | turnErr (s : CState σ ε) :
      Req.turn ∈ s.inFlight → Step s (applyTurnErr s)
  | toggleBtn (s : CState σ ε) :
      s.gameId ≠ none → s.loading = false → s.gameOver = false →
      Step s (toggleAutoPlay s)
  | fastForwardBtn (s : CState σ ε) :
      s.gameId ≠ none → s.loading = false → s.gameOver = false →
      s.autoPlay = false → Step s (fastForwardStart s)
  | fastForwardOk (s : CState σ ε) (r : BatchResp σ) :
      Req.fastForward ∈ s.inFlight → Step s (applyFastForwardOk s r)
  | fastForwardErr (s : CState σ ε) :
      Req.fastForward ∈ s.inFlight → Step s (applyFastForwardErr s)
  | playToEndBtn (s : CState σ ε) :
      s.gameId ≠ none → s.loading = false → s.gameOver = false →
      s.autoPlay = false → Step s (playToEndStart s)
  | playToEndOk (s : CState σ ε) (r : PlayResp σ ε) :
      Req.playToEnd ∈ s.inFlight → Step s (applyPlayToEndOk s r)
  | playToEndErr (s : CState σ ε) :
      Req.playToEnd ∈ s.inFlight → Step s (applyPlayToEndErr s)
  | newGameBtn (s : CState σ ε) :
      s.gameId ≠ none → Step s (newGameClick s)
  | modalBtn (s : CState σ ε) :
      s.gameOver = true → s.winner ≠ none → Step s (modalNewGameClick s)

/-- The controller's state on first render: no session, nothing in flight. -/
def initState : CState σ ε :=
  { gameId := none, gameState := none, agents := [], history := [],
    loading := false, autoPlay := false, gameOver := false, winner := none,
    inFlight := [], timerSet := false }

/-- States the controller can reach from its initial state. -/
def Reaches (s : CState σ ε) : Prop :=
  Relation.ReflTransGen Step initState s

/-- The controller's global invariant: at most one request is in flight;
`loading` is set exactly while a request is in flight; a pending auto-play
timer implies auto-play is on, nothing is loading and the game is not over;
a finished game has auto-play halted; auto-play only runs with a session; and
batch requests are only in flight with auto-play off. -/
def Inv (s : CState σ ε) : Prop :=
  s.inFlight.length ≤ 1 ∧
  (s.loading = true ↔ s.inFlight ≠ []) ∧
  (s.timerSet = true →
    s.autoPlay = true ∧ s.loading = false ∧ s.gameOver = false) ∧
  (s.gameOver = true → s.autoPlay = false) ∧
  (s.autoPlay = true → s.gameId ≠ none) ∧
  (Req.fastForward ∈ s.inFlight → s.autoPlay = false) ∧
  (Req.playToEnd ∈ s.inFlight → s.autoPlay = false)

/-- A list of length at most one containing `x` is exactly `[x]`. -/
theorem singleton_of_mem {l : List Req} {x : Req}
    (h1 : l.length ≤ 1) (h2 : x ∈ l) : l = [x] := by
  match l with
  | [] => cases h2
  | a :: t =>
      have ht : t = [] := by
        cases t with
        | nil => rfl
        | cons b u => simp at h1
      subst ht
      rcases List.mem_singleton.1 h2 with rfl
      rfl

/-- With `loading` off, nothing is in flight. -/
theorem inFlight_empty_of_not_loading {s : CState σ ε}
    (h2 : s.loading = true ↔ s.inFlight ≠ []) (hl : s.loading = false) :
    s.inFlight = [] := by
  by_contra hne
  have := h2.mpr hne
  rw [hl] at this
  cases this

/-- The recomputed timer flag entails its three dependencies. -/
theorem recomputeTimer_flag {t : CState σ ε} :
    (recomputeTimer t).timerSet = true →
      (recomputeTimer t).autoPlay = true ∧ (recomputeTimer t).loading = false ∧
        (recomputeTimer t).gameOver = false := by
  simp only [recomputeTimer, Bool.and_eq_true, Bool.not_eq_true']
  exact fun h => ⟨h.1.1, h.1.2, h.2⟩

/-- `playTurn` past its guard: with a session and the game not over, it sets
`loading` and issues the turn request. -/
theorem playTurnStart_active {s : CState σ ε} (hg : s.gameId ≠ none)
    (hgo : s.gameOver = false) :
    playTurnStart s =
      recomputeTimer { s with loading := true, inFlight := Req.turn :: s.inFlight } := by
  simp [playTurnStart, hg, hgo]

/-- `fastForward` past its guard. -/
theorem fastForwardStart_active {s : CState σ ε} (hg : s.gameId ≠ none)
    (hgo : s.gameOver = false) :
    fastForwardStart s =
      recomputeTimer { s with loading := true, inFlight := Req.fastForward :: s.inFlight } := by
  simp [fastForwardStart, hg, hgo]

/-- `playToEnd` past its guard. -/
theorem playToEndStart_active {s : CState σ ε} (hg : s.gameId ≠ none)
    (hgo : s.gameOver = false) :
    playToEndStart s =
      recomputeTimer { s with loading := true, inFlight := Req.playToEnd :: s.inFlight } := by
  simp [playToEndStart, hg, hgo]

/-- Every controller transition preserves the global invariant. -/
theorem inv_preserved {s s' : CState σ ε} (hs : Inv s) (hstep : Step s s') :
    Inv s' := by
  obtain ⟨h1, h2, h3, h4, h5, h6, h7⟩ := hs
  cases hstep with
  | createBtn hg hl =>
      have he : s.inFlight = [] := inFlight_empty_of_not_loading h2 hl
      exact ⟨by simp [startNewGameStart, recomputeTimer, he],
        by simp [startNewGameStart, recomputeTimer, he],
        recomputeTimer_flag, h4, h5,
        by simp [startNewGameStart, recomputeTimer, he],
        by simp [startNewGameStart, recomputeTimer, he]⟩
  | createOk r hm =>
      have hl : s.inFlight = [Req.newGame] := singleton_of_mem h1 hm
      exact ⟨by simp [applyCreateOk, recomputeTimer, hl],
        by simp [applyCreateOk, recomputeTimer, hl],
        recomputeTimer_flag, by simp [applyCreateOk, recomputeTimer],
        by simp [applyCreateOk, recomputeTimer],
        by simp [applyCreateOk, recomputeTimer, hl],
        by simp [applyCreateOk, recomputeTimer, hl]⟩
  | createErr hm =>
      have hl : s.inFlight = [Req.newGame] := singleton_of_mem h1 hm
      exact ⟨by simp [applyCreateErr, recomputeTimer, hl],
        by simp [applyCreateErr, recomputeTimer, hl],
        recomputeTimer_flag, h4, h5,
        by simp [applyCreateErr, recomputeTimer, hl],
        by simp [applyCreateErr, recomputeTimer, hl]⟩
  | playBtn hg hl hgo ha =>
      have he : s.inFlight = [] := inFlight_empty_of_not_loading h2 hl
      rw [playTurnStart_active hg hgo]
      exact ⟨by simp [recomputeTimer, he], by simp [recomputeTimer, he],
        recomputeTimer_flag, h4, h5,
        by simp [recomputeTimer, he], by simp [recomputeTimer, he]⟩
  | timerFire ht =>
      obtain ⟨hap, hl, hgo⟩ := h3 ht
      have he : s.inFlight = [] := inFlight_empty_of_not_loading h2 hl
      have hg : s.gameId ≠ none := h5 hap
      rw [playTurnStart_active (s := { s with timerSet := false })
        (by simpa using hg) (by simpa using hgo)]
      exact ⟨by simp [recomputeTimer, he], by simp [recomputeTimer, he],
        recomputeTimer_flag, h4, h5,
        by simp [recomputeTimer, he], by simp [recomputeTimer, he]⟩
  | turnOk r hm =>
      have hl : s.inFlight = [Req.turn] := singleton_of_mem h1 hm
      refine ⟨by simp [applyTurnOk, recomputeTimer, hl],
        by simp [applyTurnOk, recomputeTimer, hl],
        recomputeTimer_flag, ?_, ?_,
        by simp [applyTurnOk, recomputeTimer, hl],
        by simp [applyTurnOk, recomputeTimer, hl]⟩
      · by_cases hr : r.gameOver = true
        · simp [applyTurnOk, recomputeTimer, hr]
        · simpa [applyTurnOk, recomputeTimer, hr] using h4
      · by_cases hr : r.gameOver = true
        · simp [applyTurnOk, recomputeTimer, hr]
        · simpa [applyTurnOk, recomputeTimer, hr] using h5
  | turnErr hm =>
      have hl : s.inFlight = [Req.turn] := singleton_of_mem h1 hm
      exact ⟨by simp [applyTurnErr, recomputeTimer, hl],
        by simp [applyTurnErr, recomputeTimer, hl],
        recomputeTimer_flag,
        by simp [applyTurnErr, recomputeTimer],
        by simp [applyTurnErr, recomputeTimer],
        by simp [applyTurnErr, recomputeTimer, hl],
        by simp [applyTurnErr, recomputeTimer, hl]⟩
  | toggleBtn hg hl hgo =>
      have he : s.inFlight = [] := inFlight_empty_of_not_loading h2 hl
      exact ⟨by simp [toggleAutoPlay, recomputeTimer, he],
        by simp [toggleAutoPlay, recomputeTimer, he, hl],
        recomputeTimer_flag,
        by simp [toggleAutoPlay, recomputeTimer, hgo],
        by simp only [toggleAutoPlay, recomputeTimer]; intro; exact hg,
        by simp [toggleAutoPlay, recomputeTimer, he],
        by simp [toggleAutoPlay, recomputeTimer, he]⟩
  | fastForwardBtn hg hl hgo ha =>
      have he : s.inFlight = [] := inFlight_empty_of_not_loading h2 hl
      rw [fastForwardStart_active hg hgo]
      exact ⟨by simp [recomputeTimer, he], by simp [recomputeTimer, he],
        recomputeTimer_flag, h4, h5,
        by simp [recomputeTimer, he, ha], by simp [recomputeTimer, he]⟩
  | fastForwardOk r hm =>
      have hl : s.inFlight = [Req.fastForward] := singleton_of_mem h1 hm
      have ha : s.autoPlay = false := h6 hm
      exact ⟨by simp [applyFastForwardOk, recomputeTimer, hl],
        by simp [applyFastForwardOk, recomputeTimer, hl],
        recomputeTimer_flag,
        by simp [applyFastForwardOk, recomputeTimer, ha],
        by simp [applyFastForwardOk, recomputeTimer, ha],
        by simp [applyFastForwardOk, recomputeTimer, hl],
        by simp [applyFastForwardOk, recomputeTimer, hl]⟩
  | fastForwardErr hm =>
      have hl : s.inFlight = [Req.fastForward] := singleton_of_mem h1 hm
      have ha : s.autoPlay = false := h6 hm
      exact ⟨by simp [applyFastForwardErr, recomputeTimer, hl],
        by simp [applyFastForwardErr, recomputeTimer, hl],
        recomputeTimer_flag,
        by simp [applyFastForwardErr, recomputeTimer, ha],
        by simp [applyFastForwardErr, recomputeTimer, ha],
        by simp [applyFastForwardErr, recomputeTimer, hl],
        by simp [applyFastForwardErr, recomputeTimer, hl]⟩
  | playToEndBtn hg hl hgo ha =>
      have he : s.inFlight = [] := inFlight_empty_of_not_loading h2 hl
      rw [playToEndStart_active hg hgo]
      exact ⟨by simp [recomputeTimer, he], by simp [recomputeTimer, he],
        recomputeTimer_flag, h4, h5,
        by simp [recomputeTimer, he], by simp [recomputeTimer, he, ha]⟩
  | playToEndOk r hm =>
      have hl : s.inFlight = [Req.playToEnd] := singleton_of_mem h1 hm
      have ha : s.autoPlay = false := h7 hm
      exact ⟨by simp [applyPlayToEndOk, recomputeTimer, hl],
        by simp [applyPlayToEndOk, recomputeTimer, hl],
        recomputeTimer_flag,
        by simp [applyPlayToEndOk, recomputeTimer, ha],
        by simp [applyPlayToEndOk, recomputeTimer, ha],
        by simp [applyPlayToEndOk, recomputeTimer, hl],
        by simp [applyPlayToEndOk, recomputeTimer, hl]⟩
  | playToEndErr hm =>
      have hl : s.inFlight = [Req.playToEnd] := singleton_of_mem h1 hm
      have ha : s.autoPlay = false := h7 hm
      exact ⟨by simp [applyPlayToEndErr, recomputeTimer, hl],
        by simp [applyPlayToEndErr, recomputeTimer, hl],
        recomputeTimer_flag,
        by simp [applyPlayToEndErr, recomputeTimer, ha],
        by simp [applyPlayToEndErr, recomputeTimer, ha],
        by simp [applyPlayToEndErr, recomputeTimer, hl],
        by simp [applyPlayToEndErr, recomputeTimer, hl]⟩
  | newGameBtn hg =>
      exact ⟨by simpa [newGameClick, recomputeTimer] using h1,
        by simpa [newGameClick, recomputeTimer] using h2,
        recomputeTimer_flag,
        by simp [newGameClick, recomputeTimer],
        by simp [newGameClick, recomputeTimer],
        by simp [newGameClick, recomputeTimer],
        by simp [newGameClick, recomputeTimer]⟩
  | modalBtn hgo hw =>
      have ha : s.autoPlay = false := h4 hgo
      exact ⟨by simpa [modalNewGameClick, recomputeTimer] using h1,
        by simpa [modalNewGameClick, recomputeTimer] using h2,
        recomputeTimer_flag,
        by simp [modalNewGameClick, recomputeTimer],
        by simp [modalNewGameClick, recomputeTimer, ha],
        by simp [modalNewGameClick, recomputeTimer, ha],
        by simp [modalNewGameClick, recomputeTimer, ha]⟩

/-- The initial state satisfies the invariant. -/
theorem inv_initState : Inv (initState (σ := σ) (ε := ε)) := by
  refine ⟨by simp [initState], by simp [initState], by simp [initState],
    by simp [initState], by simp [initState], by simp [initState],
    by simp [initState]⟩

/-- Every reachable controller state satisfies the invariant. -/
theorem inv_of_reaches {s : CState σ ε} (h : Reaches s) : Inv s := by
  induction h with
  | refl => exact inv_initState
  | tail _ hstep ih => exact inv_preserved ih hstep

/-- C2: in every reachable controller state — over all interleavings of
button presses, timer firings and slow engine responses — at most one
request is in flight (in particular at most one turn request), and a
scheduled auto-play timer implies no request is currently in flight: the
next turn is only scheduled once the previous response has been applied. -/
theorem c2_single_inflight_request (s : CState σ ε) (h : Reaches s) :
    s.inFlight.length ≤ 1 ∧
    (s.inFlight.filter (fun q => q == Req.turn)).length ≤ 1 ∧
    (s.timerSet = true → s.inFlight = []) := by
  obtain ⟨h1, h2, h3, _, _, _, _⟩ := inv_of_reaches h
  refine ⟨h1, Nat.le_trans (List.length_filter_le _ _) h1,
    fun ht => inFlight_empty_of_not_loading h2 (h3 ht).2.1⟩

/-- Witness for C2: the initial controller state. -/
theorem c2_single_inflight_request_witness :
    (initState : CState Nat Nat).inFlight.length ≤ 1 ∧
    ((initState : CState Nat Nat).inFlight.filter (fun q => q == Req.turn)).length ≤ 1 ∧
    ((initState : CState Nat Nat).timerSet = true →
      (initState : CState Nat Nat).inFlight = []) :=
  c2_single_inflight_request initState Relation.ReflTransGen.refl

/-- C3: in any reachable state, applying a response that carries
`completed = true` — from a single turn, a fast-forward batch, or
play-to-completion — leaves the controller in a terminal GameOver state with
auto-play halted and no timer pending; and once `gameOver` holds, a `step`
(`playTurn`) call is a no-op: it changes no state and issues no request, and
no auto-play timer is pending. -/
theorem c3_completed_halts_controller (s : CState σ ε) (h : Reaches s)
    (rT : TurnResp σ ε) (hrT : rT.gameOver = true)
    (rB : BatchResp σ) (hrB : rB.gameOver = true)
    (rP : PlayResp σ ε) :
    ((applyTurnOk s rT).gameOver = true ∧ (applyTurnOk s rT).autoPlay = false ∧
      (applyTurnOk s rT).timerSet = false) ∧
    (Req.fastForward ∈ s.inFlight →
      (applyFastForwardOk s rB).gameOver = true ∧
      (applyFastForwardOk s rB).autoPlay = false ∧
      (applyFastForwardOk s rB).timerSet = false) ∧
    (Req.playToEnd ∈ s.inFlight →
      (applyPlayToEndOk s rP).gameOver = true ∧
      (applyPlayToEndOk s rP).autoPlay = false ∧
      (applyPlayToEndOk s rP).timerSet = false) ∧
    (s.gameOver = true → playTurnStart s = s ∧ s.timerSet = false) := by
  obtain ⟨h1, h2, h3, h4, h5, h6, h7⟩ := inv_of_reaches h
  refine ⟨?_, ?_, ?_, ?_⟩
  · simp [applyTurnOk, recomputeTimer, hrT]
  · intro hm
    have ha : s.autoPlay = false := h6 hm
    simp [applyFastForwardOk, recomputeTimer, hrB, ha]
  · intro hm
    have ha : s.autoPlay = false := h7 hm
    simp [applyPlayToEndOk, recomputeTimer, ha]
  · intro hgo
    refine ⟨by simp [playTurnStart, hgo], ?_⟩
    cases hts : s.timerSet with
    | false => rfl
    | true =>
        have := (h3 hts).2.2
        rw [this] at hgo
        cases hgo

/-- Witness for C3: the initial controller state and concrete completed
responses. -/
theorem c3_completed_halts_controller_witness :
    ((applyTurnOk (initState : CState Nat Nat) ⟨0, none, true, none⟩).gameOver = true ∧
      (applyTurnOk (initState : CState Nat Nat) ⟨0, none, true, none⟩).autoPlay = false ∧
      (applyTurnOk (initState : CState Nat Nat) ⟨0, none, true, none⟩).timerSet = false) ∧
    (Req.fastForward ∈ (initState : CState Nat Nat).inFlight →
      (applyFastForwardOk (initState : CState Nat Nat) ⟨0, true, none⟩).gameOver = true ∧
      (applyFastForwardOk (initState : CState Nat Nat) ⟨0, true, none⟩).autoPlay = false ∧
      (applyFastForwardOk (initState : CState Nat Nat) ⟨0, true, none⟩).timerSet = false) ∧
    (Req.playToEnd ∈ (initState : CState Nat Nat).inFlight →
      (applyPlayToEndOk (initState : CState Nat Nat) ⟨0, none, none⟩).gameOver = true ∧
      (applyPlayToEndOk (initState : CState Nat Nat) ⟨0, none, none⟩).autoPlay = false ∧
      (applyPlayToEndOk (initState : CState Nat Nat) ⟨0, none, none⟩).timerSet = false) ∧
    ((initState : CState Nat Nat).gameOver = true →
      playTurnStart (initState : CState Nat Nat) = initState ∧
      (initState : CState Nat Nat).timerSet = false) :=
  c3_completed_halts_controller initState Relation.ReflTransGen.refl
    ⟨0, none, true, none⟩ rfl ⟨0, true, none⟩ rfl ⟨0, none, none⟩

/-- C9: with the controller in GameOver, or with no session, `fastForward`
and `playToEnd` (like `playTurn`) return at their guard: the state is
unchanged — game state, winner and turn log included — and no request is
issued. -/
theorem c9_terminal_batch_noop (s : CState σ ε)
    (h : s.gameOver = true ∨ s.gameId = none) :
    fastForwardStart s = s ∧ playToEndStart s = s ∧ playTurnStart s = s := by
  rcases h with h | h <;>
    simp [fastForwardStart, playToEndStart, playTurnStart, h]

/-- Witness for C9: the initial state has no session, so batch operations
are no-ops there. -/
theorem c9_terminal_batch_noop_witness :
    fastForwardStart (initState : CState Nat Nat) = initState ∧
    playToEndStart (initState : CState Nat Nat) = initState ∧
    playTurnStart (initState : CState Nat Nat) = initState :=
  c9_terminal_batch_noop initState (Or.inr rfl)

/-- C10: the in-game New Game control resets `gameId`, `gameState`,
`gameOver` and `autoPlay` but leaves the turn log and `winner` unchanged;
a subsequent failed session creation still leaves the stale log and winner
in place, and only a successful creation clears the log. -/
theorem c10_new_game_reset (s : CState σ ε) (r : CreateResp σ) :
    (newGameClick s).gameId = none ∧ (newGameClick s).gameState = none ∧
    (newGameClick s).gameOver = false ∧ (newGameClick s).autoPlay = false ∧
    (newGameClick s).history = s.history ∧ (newGameClick s).winner = s.winner ∧
    (applyCreateErr s).history = s.history ∧
    (applyCreateErr s).winner = s.winner ∧
    (applyCreateOk s r).history = [] := by
  simp [newGameClick, applyCreateErr, applyCreateOk, recomputeTimer]

/-- Witness for C10: a concrete state with a stale log. -/
theorem c10_new_game_reset_witness :
    (newGameClick { (initState : CState Nat Nat) with
        history := [7], winner := some 1 }).history = [7] :=
  (c10_new_game_reset { (initState : CState Nat Nat) with
    history := [7], winner := some 1 } ⟨"g", 0, []⟩).2.2.2.2.1

/-- Witness for C1: the turn handler's response on a completed turn is the
same under store success and store failure. -/
theorem c1_store_failure_never_alters_response_witness :
    (turnHandler (σ := Nat) (ε := Nat) (Except.ok ⟨0, none, true, some 1⟩) true).resp =
      (turnHandler (Except.ok ⟨0, none, true, some 1⟩) false).resp :=
  (c1_store_failure_never_alters_response
    (Except.ok ⟨"g", [], 0⟩) (Except.ok ⟨0, none, true, some 1⟩)
    (Except.ok ⟨0, 3, [], some 0⟩) (Except.ok ()) (Except.ok 0) true false).2.1

/-- Witness for C7 (amended): concrete instantiation. -/
theorem c7_delete_mirror_behavior_witness :
    (deleteHandler (Except.error ⟨some 404, none⟩) true).status = 500 :=
  (c7_delete_mirror_behavior true false ⟨some 404, none⟩).2.2.2.1

end Monopoly
